import Mathlib

/-!
Verification development for the Resilient Generative-Content Client
(src/geminiService.ts).  The service functions are shallowly embedded:
the remote call is modelled by a response envelope given as input, the
JavaScript builtin JSON.parse is modelled by an executable recursive
descent parser for the ECMA-404 grammar, and the retry / polling loops
are modelled as pure recursive functions over streams of outcomes.
-/

set_option maxRecDepth 8000

namespace ContentForge

/-- A JSON value as produced by JSON.parse.  Numbers are kept exact as
mantissa and decimal exponent (value = mantissa times 10 to the
exponent); the representation is not normalised, which is faithful for
the integer-valued fields the service traffics in.  Object fields keep
their textual order, as JavaScript objects do. -/
inductive Json where
  | null : Json
  | bool : Bool → Json
  | num : Int → Int → Json
  | str : String → Json
  | arr : List Json → Json
  | obj : List (String × Json) → Json
deriving Repr

/-- JSON whitespace: space, tab, line feed, carriage return. -/
def isJsonWs (c : Char) : Bool :=
  c = ' ' || c = '\t' || c = '\n' || c = '\r'

/-- Drop leading JSON whitespace. -/
def skipWs : List Char → List Char
  | [] => []
  | c :: cs => if isJsonWs c then skipWs cs else c :: cs

def isDigitCh (c : Char) : Bool := '0' ≤ c && c ≤ '9'

def digitVal (c : Char) : Nat := c.toNat - '0'.toNat

/-- Take a maximal run of decimal digits. -/
def takeDigits : List Char → List Nat × List Char
  | [] => ([], [])
  | c :: cs =>
    if isDigitCh c then
      let p := takeDigits cs
      (digitVal c :: p.1, p.2)
    else ([], c :: cs)

def digitsToNat (ds : List Nat) : Nat :=
  ds.foldl (fun acc d => 10 * acc + d) 0

/-- Integer part of a JSON number: a single zero, or a nonzero digit
followed by more digits (leading zeros are rejected, as JSON.parse
does). -/
def parseIntPart : List Char → Option (List Nat × List Char)
  | [] => none
  | c :: r =>
    if c = '0' then some ([0], r)
    else if isDigitCh c then
      let p := takeDigits r
      some (digitVal c :: p.1, p.2)
    else none

/-- Optional fraction part; a dot must be followed by at least one
digit.  Returns the fraction digits (empty when absent). -/
def parseFrac : List Char → Option (List Nat × List Char)
  | '.' :: r =>
    let p := takeDigits r
    if p.1.isEmpty then none else some (p.1, p.2)
  | cs => some (([] : List Nat), cs)

/-- Optional exponent part; returns the signed decimal exponent
(zero when absent). -/
def parseExp : List Char → Option (Int × List Char)
  | [] => some (0, [])
  | c :: r =>
    if c = 'e' || c = 'E' then
      let sr : Int × List Char :=
        match r with
        | '+' :: t => (1, t)
        | '-' :: t => (-1, t)
        | _ => (1, r)
      let p := takeDigits sr.2
      if p.1.isEmpty then none
      else some (sr.1 * (digitsToNat p.1 : Int), p.2)
    else some (0, c :: r)

/-- The unsigned part of a JSON number: integer part, optional
fraction, optional exponent.  Yields the magnitude of the mantissa and
the decimal exponent. -/
def parseNumberCore (cs : List Char) : Option ((Nat × Int) × List Char) :=
  match parseIntPart cs with
  | none => none
  | some (intDs, cs2) =>
    match parseFrac cs2 with
    | none => none
    | some (fracDs, cs3) =>
      match parseExp cs3 with
      | none => none
      | some (ex, cs4) =>
        some ((digitsToNat (intDs ++ fracDs), ex - (fracDs.length : Int)), cs4)

/-- A JSON number: an optional leading minus applied to the unsigned
part.  Yields mantissa and decimal exponent. -/
def parseNumber (cs : List Char) : Option ((Int × Int) × List Char) :=
  match cs with
  | '-' :: r =>
    match parseNumberCore r with
    | some ((mag, ex), rest) => some ((-(mag : Int), ex), rest)
    | none => none
  | _ =>
    match parseNumberCore cs with
    | some ((mag, ex), rest) => some (((mag : Int), ex), rest)
    | none => none

/-- Value of a hexadecimal digit, by code point: 0x30 to 0x39 are the
decimal digits, 0x61 to 0x66 the lowercase and 0x41 to 0x46 the
uppercase letters a to f. -/
def hexVal (c : Char) : Option Nat :=
  let n := c.toNat
  if 48 ≤ n && n ≤ 57 then some (n - 48)
  else if 97 ≤ n && n ≤ 102 then some (n - 87)
  else if 65 ≤ n && n ≤ 70 then some (n - 55)
  else none

/-- Single-character escapes allowed after a backslash in a JSON
string. -/
def escChar (c : Char) : Option Char :=
  if c = '"' then some '"'
  else if c = '\\' then some '\\'
  else if c = '/' then some '/'
  else if c = 'b' then some (Char.ofNat 8)
  else if c = 'f' then some (Char.ofNat 12)
  else if c = 'n' then some '\n'
  else if c = 'r' then some '\r'
  else if c = 't' then some '\t'
  else none

/-- Body of a JSON string after the opening quote, up to and including
the closing quote.  Raw control characters are rejected; backslash
escapes and four-hex-digit unicode escapes are decoded (lone UTF-16
surrogate halves, which Lean characters cannot hold, are outside the
modelled fragment). -/
def parseStringBody : Nat → List Char → Option (List Char × List Char)
  | 0, _ => none
  | _ + 1, [] => none
  | fuel + 1, c :: r =>
    if c = '"' then some ([], r)
    else if c = '\\' then
      match r with
      | [] => none
      | e :: r2 =>
        if e = 'u' then
          match r2 with
          | h1 :: h2 :: h3 :: h4 :: r3 =>
            match hexVal h1, hexVal h2, hexVal h3, hexVal h4 with
            | some a, some b, some d, some k =>
              match parseStringBody fuel r3 with
              | some (s, rest) =>
                some (Char.ofNat (((a * 16 + b) * 16 + d) * 16 + k) :: s, rest)
              | none => none
            | _, _, _, _ => none
          | _ => none
        else
          match escChar e with
          | some ec =>
            match parseStringBody fuel r2 with
            | some (s, rest) => some (ec :: s, rest)
            | none => none
          | none => none
    else if c.toNat < 32 then none
    else
      match parseStringBody fuel r with
      | some (s, rest) => some (c :: s, rest)
      | none => none

/-- Which grammar production the fueled parser core is working on: a
single value, the element list of an array after the opening bracket,
or the member list of an object after the opening brace. -/
inductive PMode where
  | val
  | elems
  | members
deriving Repr

/-- Recursive descent core for JSON.parse.  In mode elems the result is
already wrapped as an array value, in mode members as an object value,
so a single fueled function covers the mutual grammar.  The fuel only
bounds the recursion depth; parse gives every input enough fuel. -/
def parseCore : Nat → PMode → List Char → Option (Json × List Char)
  | 0, _, _ => none
  | fuel + 1, PMode.val, cs =>
    match skipWs cs with
    | [] => none
    | c :: r =>
      if c = 'n' then
        match r with
        | 'u' :: 'l' :: 'l' :: rest => some (Json.null, rest)
        | _ => none
      else if c = 't' then
        match r with
        | 'r' :: 'u' :: 'e' :: rest => some (Json.bool true, rest)
        | _ => none
      else if c = 'f' then
        match r with
        | 'a' :: 'l' :: 's' :: 'e' :: rest => some (Json.bool false, rest)
        | _ => none
      else if c = '"' then
        match parseStringBody (r.length + 1) r with
        | some (s, rest) => some (Json.str (String.mk s), rest)
        | none => none
      else if c = '[' then
        match skipWs r with
        | ']' :: rest => some (Json.arr [], rest)
        | r2 => parseCore fuel PMode.elems r2
      else if c = '\x7b' then
        match skipWs r with
        | '\x7d' :: rest => some (Json.obj [], rest)
        | r2 => parseCore fuel PMode.members r2
      else
        match parseNumber (c :: r) with
        | some (me, rest) => some (Json.num me.1 me.2, rest)
        | none => none
  | fuel + 1, PMode.elems, cs =>
    match parseCore fuel PMode.val cs with
    | some (v, rest) =>
      match skipWs rest with
      | ',' :: r2 =>
        match parseCore fuel PMode.elems r2 with
        | some (Json.arr es, r3) => some (Json.arr (v :: es), r3)
        | _ => none
      | ']' :: r2 => some (Json.arr [v], r2)
      | _ => none
    | none => none
  | fuel + 1, PMode.members, cs =>
    match skipWs cs with
    | '"' :: r =>
      match parseStringBody (r.length + 1) r with
      | some (k, r2) =>
        match skipWs r2 with
        | ':' :: r3 =>
          match parseCore fuel PMode.val r3 with
          | some (v, r4) =>
            match skipWs r4 with
            | ',' :: r5 =>
              match parseCore fuel PMode.members r5 with
              | some (Json.obj ms, r6) => some (Json.obj ((String.mk k, v) :: ms), r6)
              | _ => none
            | '\x7d' :: r5 => some (Json.obj [(String.mk k, v)], r5)
            | _ => none
          | none => none
        | _ => none
      | none => none
    | _ => none

/-- Model of the JavaScript builtin JSON.parse: parse one value and
require only whitespace after it; none models a thrown SyntaxError. -/
def Json.parse (s : String) : Option Json :=
  match parseCore (s.length + 1) PMode.val s.data with
  | some (v, rest) => if (skipWs rest).isEmpty then some v else none
  | none => none

/-- Field lookup in a decoded JSON object (first binding wins, as
JSON.parse keeps the last duplicate; duplicates do not occur in the
payloads considered here). -/
def getField (j : Json) (k : String) : Option Json :=
  match j with
  | Json.obj fields => fields.lookup k
  | _ => none

/-- A JavaScript error as inspected by withRetry: an optional numeric
status field and an optional message.  none models an absent
(undefined) field. -/
structure JsError where
  status : Option Nat
  message : Option String
deriving Repr, DecidableEq

/-- Is the needle a contiguous infix of the haystack (used for the
JavaScript String.includes checks). -/
def isInfixB (needle : List Char) : List Char → Bool
  | [] => needle.isEmpty
  | c :: cs => needle.isPrefixOf (c :: cs) || isInfixB needle cs

/-- Classification from withRetry, line 11 to 13 of geminiService.ts:
status equals 429, or the lowercased message contains one of the
markers "429", "quota", "resource_exhausted".  An absent status reads
as 0 and an absent message as the empty string, as the JavaScript
or-defaults do. -/
def isBusy (e : JsError) : Bool :=
  let status := e.status.getD 0
  let message := (e.message.getD "").data.map Char.toLower
  status == 429 || isInfixB "429".data message
    || isInfixB "quota".data message
    || isInfixB "resource_exhausted".data message

/-- The error thrown when the retry budget is exhausted on a
rate-limited error (geminiService.ts line 23). -/
def capacityError : JsError :=
  ⟨none, some "AI Capacity Reached. Please wait 60 seconds for the node to cool down."⟩

/-- Model of withRetry (geminiService.ts lines 7 to 27).  The attempts
of the effectful thunk are modelled as a stream fn of outcomes indexed
by attempt number k, and the values of Math.random() * 1000 as a
stream jit reduced modulo 1000 (Math.random() lies in [0,1)).  The
result is paired with the list of delays passed to setTimeout, in
order.  The delay is baseDelay * (4 - retries) + jitter with retries
the current budget, exactly as in the source. -/
def withRetry {α : Type} (fn : Nat → Except JsError α) (jit : Nat → Nat)
    (baseDelay : Int) : Nat → Nat → Except JsError α × List Int
  | k, 0 =>
    match fn k with
    | Except.ok a => (Except.ok a, [])
    | Except.error e =>
      if isBusy e then (Except.error capacityError, []) else (Except.error e, [])
  | k, r + 1 =>
    match fn k with
    | Except.ok a => (Except.ok a, [])
    | Except.error e =>
      if isBusy e then
        let delay : Int := baseDelay * (4 - ((r : Int) + 1)) + ((jit k % 1000 : Nat) : Int)
        let rest := withRetry fn jit baseDelay (k + 1) r
        (rest.1, delay :: rest.2)
      else (Except.error e, [])

/-- Web metadata of a grounding chunk; both fields may be absent. -/
structure WebInfo where
  title : Option String
  uri : Option String
deriving Repr, DecidableEq

/-- A grounding chunk: web is absent for non-web citation kinds. -/
structure GroundingChunk where
  web : Option WebInfo
deriving Repr, DecidableEq

/-- A produced source (src/unnamed/part_000 declares uri as a string,
but the extractor copies chunk.web.uri through unchecked, so at
runtime it can be absent; the model keeps it optional to state that
fact). -/
structure GroundingSource where
  title : String
  uri : Option String
deriving Repr, DecidableEq

/-- The slice of a GenerateContentResponse the client reads: the text
accessor and the grounding chunk list reached by the optional chain
candidates, first candidate, groundingMetadata, groundingChunks.  none
models an absent level of that chain (or absent text). -/
structure ResponseEnvelope where
  text : Option String
  groundingChunks : Option (List GroundingChunk)
deriving Repr, DecidableEq

/-- The JavaScript idiom value or default, where the default is taken
both for an absent string and for the empty string (both falsy). -/
def jsTextOrDefault (t : Option String) (d : String) : String :=
  match t with
  | none => d
  | some s => if s = "" then d else s

/-- title or "Reference": the default is taken for an absent title and
for an empty title, as the JavaScript or does. -/
def defaultTitle (t : Option String) : String :=
  match t with
  | none => "Reference"
  | some s => if s = "" then "Reference" else s

/-- Model of extractSources (geminiService.ts lines 40 to 48): read
the grounding chunks (absent chain treated as the empty list), keep
the chunks that carry web metadata in order, default the title, and
copy the uri through unchanged. -/
def extractSources (resp : ResponseEnvelope) : List GroundingSource :=
  ((resp.groundingChunks.getD []).filterMap (fun c => c.web)).map
    (fun w => ⟨defaultTitle w.title, w.uri⟩)

/-- The SyntaxError thrown by JSON.parse on unparsable text.  Only its
classification matters: its message contains none of the rate-limit
markers, so withRetry propagates it unchanged. -/
def parseError : JsError := ⟨none, some "Unexpected token in JSON"⟩

/-- One attempt of analyzeNiche after the remote call resolved
(geminiService.ts lines 77 to 79): JSON.parse of the response text
with the empty-object literal substituted for absent or empty text,
then the grounding sources attached.  The model returns the parsed
value paired with the sources (the source mutates a sources property
onto the parsed object). -/
def analyzeNicheOnce (resp : ResponseEnvelope) :
    Except JsError (Json × List GroundingSource) :=
  match Json.parse (jsTextOrDefault resp.text "\x7b\x7d") with
  | some v => Except.ok (v, extractSources resp)
  | none => Except.error parseError

/-- analyzeNiche (geminiService.ts lines 53 to 81): the attempt above
run under withRetry with the default budget of 3 retries and base
delay 3000 ms.  The response envelope is fixed across attempts since
only the first attempt matters for the decode claims. -/
def analyzeNiche (resp : ResponseEnvelope) (jit : Nat → Nat) :
    Except JsError (Json × List GroundingSource) :=
  (withRetry (fun _ => analyzeNicheOnce resp) jit 3000 0 3).1

/-- One attempt of generateStrategy (geminiService.ts line 265):
JSON.parse of the text with the empty-object literal substituted for
absent or empty text. -/
def generateStrategyOnce (resp : ResponseEnvelope) : Except JsError Json :=
  match Json.parse (jsTextOrDefault resp.text "\x7b\x7d") with
  | some v => Except.ok v
  | none => Except.error parseError

/-- generateStrategy (geminiService.ts lines 236 to 267) under
withRetry with the default budget. -/
def generateStrategy (resp : ResponseEnvelope) (jit : Nat → Nat) :
    Except JsError Json :=
  (withRetry (fun _ => generateStrategyOnce resp) jit 3000 0 3).1

/-- One attempt of splitScriptIntoStoryboard (geminiService.ts line
130): JSON.parse of the text with the empty-array literal substituted
for absent or empty text. -/
def splitScriptIntoStoryboardOnce (resp : ResponseEnvelope) : Except JsError Json :=
  match Json.parse (jsTextOrDefault resp.text "[]") with
  | some v => Except.ok v
  | none => Except.error parseError

/-- splitScriptIntoStoryboard (geminiService.ts lines 106 to 132)
under withRetry with the default budget. -/
def splitScriptIntoStoryboard (resp : ResponseEnvelope) (jit : Nat → Nat) :
    Except JsError Json :=
  (withRetry (fun _ => splitScriptIntoStoryboardOnce resp) jit 3000 0 3).1

/-- One attempt of generateScript (geminiService.ts line 99): the
response text, or the fallback literal when the text is absent or
empty.  Never an error once the remote call succeeded. -/
def generateScriptOnce (resp : ResponseEnvelope) : Except JsError String :=
  Except.ok (jsTextOrDefault resp.text "Production failure: Script engine offline.")

/-- generateScript (geminiService.ts lines 86 to 101) under withRetry
with the default budget. -/
def generateScript (resp : ResponseEnvelope) (jit : Nat → Nat) :
    Except JsError String :=
  (withRetry (fun _ => generateScriptOnce resp) jit 3000 0 3).1

/-- The state of a video operation handle as the poller reads it: the
done flag and the uri reached by the optional chain response,
generatedVideos, first element, video, uri. -/
structure VideoOp where
  done : Bool
  uri : Option String
deriving Repr, DecidableEq

/-- The error thrown when a completed job carries no uri
(geminiService.ts line 231). -/
def productionError : JsError := ⟨none, some "Production error: Video compilation failed."⟩

/-- The while loop of compileVideoWithVeo (geminiService.ts lines 225
to 228).  getOp is the stream of results of getVideosOperation,
indexed by call number j; fuel bounds the observed iterations so the
loop is a total function: none means the loop is still running after
fuel iterations.  On termination it returns the final operation state
and the number of getVideosOperation calls made. -/
def pollLoop (getOp : Nat → VideoOp) : Nat → Nat → VideoOp → Option (VideoOp × Nat)
  | 0, j, op => if op.done then some (op, j) else none
  | fuel + 1, j, op =>
    if op.done then some (op, j)
    else pollLoop getOp fuel (j + 1) (getOp j)

/-- compileVideoWithVeo (geminiService.ts lines 211 to 234): poll from
the initial generateVideos result until done, then read the download
link; the source guard is the falsiness test on the link, so a
completed job whose link is absent or the empty string fails with the
production error, and otherwise the returned uri is the link with the
key query parameter appended.  The count returned is the total number
of done-flag observations (the initial response plus the polls).  none
means the loop had not terminated within fuel iterations. -/
def compileVideoWithVeo (initial : VideoOp) (getOp : Nat → VideoOp)
    (apiKey : String) (fuel : Nat) : Option (Except JsError String × Nat) :=
  match pollLoop getOp fuel 0 initial with
  | none => none
  | some (op, j) =>
    match op.uri with
    | some link =>
      if link = "" then some (Except.error productionError, j + 1)
      else some (Except.ok (link ++ "&key=" ++ apiKey), j + 1)
    | none => some (Except.error productionError, j + 1)

/-- A zero jitter stream, used to instantiate concrete scenarios. -/
def jit0 : Nat → Nat := fun _ => 0

/-- The mocked niche-analysis response text of the end-to-end
scenario, with trendScore 13. -/
def fitnessResponseText : String :=
  "\x7b\"name\":\"Fitness\",\"trendScore\":13,\"competition\":\"Low\",\"monetization\":\"Affiliate\",\"longevity\":\"High\",\"platformFit\":\"YouTube\"\x7d"

/-- The envelope carrying the mocked niche-analysis response, with no
grounding metadata. -/
def fitnessResp : ResponseEnvelope := ⟨some fitnessResponseText, none⟩

/-- The value JSON.parse yields for the mocked niche-analysis
response. -/
def fitnessDecoded : Json :=
  Json.obj [("name", Json.str "Fitness"), ("trendScore", Json.num 13 0),
    ("competition", Json.str "Low"), ("monetization", Json.str "Affiliate"),
    ("longevity", Json.str "High"), ("platformFit", Json.str "YouTube")]

/-- A response text wrapping one valid bracketed structure in prose
and a fenced block. -/
def proseWrappedPayload : String :=
  "Here is the storyboard you asked for:\n```json\n[1, 2]\n```"

/-! Helper lemmas about the retry engine and the poll loop, shared by
the claim theorems below. -/

/-- A successful attempt returns immediately, whatever the budget. -/
lemma withRetry_ok {α : Type} (fn : Nat → Except JsError α) (jit : Nat → Nat)
    (b : Int) (k r : Nat) (a : α) (h : fn k = Except.ok a) :
    withRetry fn jit b k r = (Except.ok a, []) := by
  cases r <;> simp [withRetry, h]

/-- An error not classified rate-limited propagates unchanged with no
delay, whatever the budget. -/
lemma withRetry_notBusy {α : Type} (fn : Nat → Except JsError α) (jit : Nat → Nat)
    (b : Int) (k r : Nat) (e : JsError) (he : fn k = Except.error e)
    (hb : isBusy e = false) :
    withRetry fn jit b k r = (Except.error e, []) := by
  cases r <;> simp [withRetry, he, hb]

/-- A rate-limited error with exhausted budget raises the capacity
error. -/
lemma withRetry_busyZero {α : Type} (fn : Nat → Except JsError α) (jit : Nat → Nat)
    (b : Int) (k : Nat) (e : JsError) (he : fn k = Except.error e)
    (hb : isBusy e = true) :
    withRetry fn jit b k 0 = (Except.error capacityError, []) := by
  simp [withRetry, he, hb]

/-- A rate-limited error with remaining budget sleeps for the computed
delay and recurses on the next attempt with one fewer retry. -/
lemma withRetry_busySucc {α : Type} (fn : Nat → Except JsError α) (jit : Nat → Nat)
    (b : Int) (k r : Nat) (e : JsError) (he : fn k = Except.error e)
    (hb : isBusy e = true) :
    withRetry fn jit b k (r + 1) =
      ((withRetry fn jit b (k + 1) r).1,
        (b * (4 - ((r : Int) + 1)) + ((jit k % 1000 : Nat) : Int))
          :: (withRetry fn jit b (k + 1) r).2) := by
  simp [withRetry, he, hb]

/-- A poll observing the done flag set terminates at once, whatever
the fuel. -/
lemma pollLoop_done (getOp : Nat → VideoOp) (fuel j : Nat) (op : VideoOp)
    (h : op.done = true) : pollLoop getOp fuel j op = some (op, j) := by
  cases fuel <;> simp [pollLoop, h]

/-- A poll observing the done flag cleared recurses on the next poll
result. -/
lemma pollLoop_step (getOp : Nat → VideoOp) (fuel j : Nat) (op : VideoOp)
    (h : op.done = false) :
    pollLoop getOp (fuel + 1) j op = pollLoop getOp fuel (j + 1) (getOp j) := by
  simp [pollLoop, h]

/-- If the loop terminated, the final operation state has the done
flag set. -/
lemma pollLoop_done_of_some (getOp : Nat → VideoOp) :
    ∀ fuel j op r, pollLoop getOp fuel j op = some r → r.1.done = true := by
  intro fuel
  induction fuel with
  | zero =>
    intro j op r h
    by_cases hd : op.done = true
    · simp [pollLoop, hd] at h
      rw [← h]
      exact hd
    · simp [pollLoop, hd] at h
  | succ fuel ih =>
    intro j op r h
    by_cases hd : op.done = true
    · simp [pollLoop, hd] at h
      rw [← h]
      exact hd
    · rw [pollLoop_step getOp fuel j op (by simpa using hd)] at h
      exact ih (j + 1) (getOp j) r h

/-- If no observed state ever has the done flag set, the loop has not
terminated after any number of iterations. -/
lemma pollLoop_neverDone (getOp : Nat → VideoOp)
    (hall : ∀ n, (getOp n).done = false) :
    ∀ fuel j op, op.done = false → pollLoop getOp fuel j op = none := by
  intro fuel
  induction fuel with
  | zero => intro j op h; simp [pollLoop, h]
  | succ fuel ih =>
    intro j op h
    rw [pollLoop_step getOp fuel j op h]
    exact ih (j + 1) (getOp j) (hall j)

/-- C1 counterexample: on a response whose text is absent, analyzeNiche
does not fail — the or-default substitutes the empty-object literal,
JSON.parse accepts it, and the caller receives an empty object (with an
empty source list); generateStrategy behaves the same on empty text.
This refutes the claim that an absent or empty JSON-shaped response
payload fails with MalformedPayload and that no default or empty domain
value is ever returned. -/
theorem C1_counterexample :
    analyzeNiche ⟨none, none⟩ jit0 = Except.ok (Json.obj [], []) ∧
    generateStrategy ⟨some "", none⟩ jit0 = Except.ok (Json.obj []) :=
  ⟨rfl, rfl⟩

/-- C1 amended: if the response text is nonempty and JSON.parse rejects
it, analyzeNiche and generateStrategy fail with the propagated parse
error (no retry, no substituted value); but if the text is absent or
empty, both succeed with the empty object decoded from the substituted
empty-object literal instead of failing. -/
theorem C1_amended (resp : ResponseEnvelope) (jit : Nat → Nat) :
    (∀ s, resp.text = some s → s ≠ "" → Json.parse s = none →
      analyzeNiche resp jit = Except.error parseError ∧
      generateStrategy resp jit = Except.error parseError) ∧
    ((resp.text = none ∨ resp.text = some "") →
      analyzeNiche resp jit = Except.ok (Json.obj [], extractSources resp) ∧
      generateStrategy resp jit = Except.ok (Json.obj [])) := by
  have hnb : isBusy parseError = false := rfl
  have hobj : Json.parse "\x7b\x7d" = some (Json.obj []) := rfl
  constructor
  · intro s hs hne hp
    have h1 : analyzeNicheOnce resp = Except.error parseError := by
      simp [analyzeNicheOnce, jsTextOrDefault, hs, hne, hp]
    have h2 : generateStrategyOnce resp = Except.error parseError := by
      simp [generateStrategyOnce, jsTextOrDefault, hs, hne, hp]
    constructor
    · have := withRetry_notBusy (fun _ => analyzeNicheOnce resp) jit 3000 0 3
        parseError (by simp [h1]) hnb
      simp [analyzeNiche, this]
    · have := withRetry_notBusy (fun _ => generateStrategyOnce resp) jit 3000 0 3
        parseError (by simp [h2]) hnb
      simp [generateStrategy, this]
  · intro hs
    have htext : jsTextOrDefault resp.text "\x7b\x7d" = "\x7b\x7d" := by
      rcases hs with h | h <;> simp [jsTextOrDefault, h]
    have h1 : analyzeNicheOnce resp = Except.ok (Json.obj [], extractSources resp) := by
      simp [analyzeNicheOnce, htext, hobj]
    have h2 : generateStrategyOnce resp = Except.ok (Json.obj []) := by
      simp [generateStrategyOnce, htext, hobj]
    constructor
    · have := withRetry_ok (fun _ => analyzeNicheOnce resp) jit 3000 0 3
        (Json.obj [], extractSources resp) (by simp [h1])
      simp [analyzeNiche, this]
    · have := withRetry_ok (fun _ => generateStrategyOnce resp) jit 3000 0 3
        (Json.obj []) (by simp [h2])
      simp [generateStrategy, this]

/-- C1 witness: the amended theorem applied to a concrete unparsable
nonempty response text. -/
theorem C1_witness :
    analyzeNiche ⟨some "oops", none⟩ jit0 = Except.error parseError :=
  ((C1_amended ⟨some "oops", none⟩ jit0).1 "oops" rfl (by decide) rfl).1

/-- C2 counterexample: the bracketed region of the prose-wrapped
payload is valid JSON on its own, yet splitScriptIntoStoryboard fails
on the payload — there is no recovery step that extracts the bracketed
region, so the claimed decode of prose-wrapped payloads does not
happen. -/
theorem C2_counterexample :
    Json.parse "[1, 2]" = some (Json.arr [Json.num 1 0, Json.num 2 0]) ∧
    splitScriptIntoStoryboard ⟨some proseWrappedPayload, none⟩ jit0 =
      Except.error parseError :=
  ⟨rfl, rfl⟩

/-- C2 amended: decoding is a single strict JSON.parse of the whole
response text.  A payload wrapping a valid structure in prose or a
fenced block fails to decode, and so do payloads whose only defects
are a trailing comma before a closing bracket or brace or an unquoted
key — no bracketed-region extraction and no sanitize step exist — even
though the corresponding strict payloads parse fine. -/
theorem C2_amended :
    splitScriptIntoStoryboard ⟨some proseWrappedPayload, none⟩ jit0 =
      Except.error parseError ∧
    splitScriptIntoStoryboard ⟨some "[1, 2,]", none⟩ jit0 = Except.error parseError ∧
    generateStrategy ⟨some "\x7b\"a\": 1,\x7d", none⟩ jit0 = Except.error parseError ∧
    generateStrategy ⟨some "\x7ba: 1\x7d", none⟩ jit0 = Except.error parseError ∧
    Json.parse "[1, 2]" = some (Json.arr [Json.num 1 0, Json.num 2 0]) ∧
    Json.parse "\x7b\"a\": 1\x7d" = some (Json.obj [("a", Json.num 1 0)]) :=
  ⟨rfl, rfl, rfl, rfl, rfl, rfl⟩

/-- C5 counterexample: on the mocked niche-analysis response the
decoded value keeps trendScore at 13 — nothing clamps it to 10, so the
claimed clamping does not happen. -/
theorem C5_counterexample :
    analyzeNiche fitnessResp jit0 = Except.ok (fitnessDecoded, []) ∧
    getField fitnessDecoded "trendScore" = some (Json.num 13 0) ∧
    Json.num 13 0 ≠ Json.num 10 0 := by
  refine ⟨rfl, rfl, ?_⟩
  simp

/-- C5 amended: on the mocked niche-analysis response the decoded
value is returned with every field, trendScore included, exactly as in
the response text: trendScore stays 13 and is not clamped into the 0
to 10 range. -/
theorem C5_amended :
    analyzeNiche fitnessResp jit0 =
      Except.ok (Json.obj [("name", Json.str "Fitness"), ("trendScore", Json.num 13 0),
        ("competition", Json.str "Low"), ("monetization", Json.str "Affiliate"),
        ("longevity", Json.str "High"), ("platformFit", Json.str "YouTube")], []) :=
  rfl

/-- C8: the grounding extractor maps an absent or empty chunk list to
the empty result, and on three candidates of which the middle one is
not web-originated it returns exactly the two web candidates in their
original order, defaulting the title of the one that lacks a title. -/
theorem C8_extractor (t : Option String) (u1 u3 : Option String) :
    extractSources ⟨t, none⟩ = [] ∧
    extractSources ⟨t, some []⟩ = [] ∧
    extractSources ⟨t, some [⟨some ⟨none, u1⟩⟩, ⟨none⟩, ⟨some ⟨some "Site", u3⟩⟩]⟩ =
      [⟨"Reference", u1⟩, ⟨"Site", u3⟩] :=
  ⟨rfl, rfl, rfl⟩

/-- C9 counterexample: a web-originated candidate with an absent uri
and one with an empty uri both survive extraction, producing sources
whose uri is absent and empty respectively — the claimed non-emptiness
of every produced uri is false. -/
theorem C9_counterexample :
    extractSources ⟨none, some [⟨some ⟨none, none⟩⟩, ⟨some ⟨some "T", some ""⟩⟩]⟩ =
      [⟨"Reference", none⟩, ⟨"T", some ""⟩] ∧
    (extractSources ⟨none, some [⟨some ⟨none, none⟩⟩, ⟨some ⟨some "T", some ""⟩⟩]⟩).map
      GroundingSource.uri = [none, some ""] :=
  ⟨rfl, rfl⟩

/-- C9 amended: the extractor copies each kept web candidate uri
through unchanged — absent or empty uris included — so only the title
is defaulted and no non-emptiness of the uri is enforced. -/
theorem C9_amended (t : Option String) (tt u : Option String)
    (rest : List GroundingChunk) :
    extractSources ⟨t, some (⟨some ⟨tt, u⟩⟩ :: rest)⟩ =
      ⟨defaultTitle tt, u⟩ :: extractSources ⟨t, some rest⟩ :=
  rfl

/-- C10: when the remote call succeeds but the response text is absent
or empty, generateScript does not fail: it returns the literal
fallback string as if it were the generated script. -/
theorem C10_script_fallback (resp : ResponseEnvelope) (jit : Nat → Nat)
    (h : resp.text = none ∨ resp.text = some "") :
    generateScript resp jit =
      Except.ok "Production failure: Script engine offline." := by
  have htext : jsTextOrDefault resp.text "Production failure: Script engine offline."
      = "Production failure: Script engine offline." := by
    rcases h with h | h <;> simp [jsTextOrDefault, h]
  have h1 : generateScriptOnce resp
      = Except.ok "Production failure: Script engine offline." := by
    simp [generateScriptOnce, htext]
  have := withRetry_ok (fun _ => generateScriptOnce resp) jit 3000 0 3
    "Production failure: Script engine offline." (by simp [h1])
  simp [generateScript, this]

/-- C10 witness: the theorem applied to a response with absent text. -/
theorem C10_witness :
    generateScript ⟨none, none⟩ jit0 =
      Except.ok "Production failure: Script engine offline." :=
  C10_script_fallback ⟨none, none⟩ jit0 (Or.inl rfl)

/-- C3 counterexample: with the default budget (retries = 3, base
delay 3000 ms), a sequence of exactly 3 consecutive rate-limited
errors does not end in the capacity-reached failure after 2 retries as
claimed — the engine retries a third time and the fourth attempt can
succeed.  The delays also show three retries were slept through. -/
theorem C3_counterexample :
    withRetry (fun k => if k < 3 then Except.error ⟨some 429, none⟩ else Except.ok 7)
      jit0 3000 0 3 = (Except.ok 7, [3000, 6000, 9000]) :=
  rfl

/-- C3 amended: with the default budget (retries = 3, so up to 4
attempts in total), a sequence of 4 consecutive rate-limited errors
makes withRetry retry exactly 3 times and then fail with the
capacity-reached error; the three delays are the base delay times 1,
2, 3 plus the per-attempt jitter, hence strictly increasing, and every
jitter contribution is below the 1000 ms bound. -/
theorem C3_amended (fn : Nat → Except JsError Nat) (jit : Nat → Nat)
    (h : ∀ k, k < 4 → ∃ e, fn k = Except.error e ∧ isBusy e = true) :
    withRetry fn jit 3000 0 3 =
      (Except.error capacityError,
        [3000 + ((jit 0 % 1000 : Nat) : Int),
         6000 + ((jit 1 % 1000 : Nat) : Int),
         9000 + ((jit 2 % 1000 : Nat) : Int)]) ∧
    3000 + ((jit 0 % 1000 : Nat) : Int) < 6000 + ((jit 1 % 1000 : Nat) : Int) ∧
    6000 + ((jit 1 % 1000 : Nat) : Int) < 9000 + ((jit 2 % 1000 : Nat) : Int) ∧
    (∀ k, ((jit k % 1000 : Nat) : Int) < 1000) := by
  obtain ⟨e0, he0, hb0⟩ := h 0 (by norm_num)
  obtain ⟨e1, he1, hb1⟩ := h 1 (by norm_num)
  obtain ⟨e2, he2, hb2⟩ := h 2 (by norm_num)
  obtain ⟨e3, he3, hb3⟩ := h 3 (by norm_num)
  have hjit : ∀ k, ((jit k % 1000 : Nat) : Int) < 1000 := by
    intro k
    exact_mod_cast Nat.mod_lt _ (by norm_num)
  refine ⟨?_, by linarith [hjit 0], by linarith [hjit 1], hjit⟩
  have w3 : withRetry fn jit 3000 0 3 = withRetry fn jit 3000 0 (2 + 1) := rfl
  rw [w3, withRetry_busySucc fn jit 3000 0 2 e0 he0 hb0]
  have w2 : withRetry fn jit 3000 (0 + 1) 2 = withRetry fn jit 3000 (0 + 1) (1 + 1) := rfl
  rw [w2, withRetry_busySucc fn jit 3000 (0 + 1) 1 e1 (by simpa using he1) hb1]
  have w1 : withRetry fn jit 3000 (0 + 1 + 1) 1 = withRetry fn jit 3000 (0 + 1 + 1) (0 + 1) := rfl
  rw [w1, withRetry_busySucc fn jit 3000 (0 + 1 + 1) 0 e2 (by simpa using he2) hb2]
  rw [withRetry_busyZero fn jit 3000 (0 + 1 + 1 + 1) e3 (by simpa using he3) hb3]
  norm_num

/-- C3 witness: the amended theorem applied to a stream of uniformly
rate-limited errors with zero jitter. -/
theorem C3_witness :
    withRetry (fun _ => (Except.error ⟨some 429, none⟩ : Except JsError Nat))
      jit0 3000 0 3 = (Except.error capacityError, [3000, 6000, 9000]) :=
  (C3_amended (fun _ => Except.error ⟨some 429, none⟩) jit0
    (fun _ _ => ⟨⟨some 429, none⟩, rfl, rfl⟩)).1

/-- C4: withRetry retries an attempt precisely when the error is
classified rate-limited (status 429 or a message containing one of the
markers) and budget remains; any other error propagates to the caller
unchanged on the first occurrence with no retry and no recorded delay,
and a rate-limited error with empty budget raises the capacity
error. -/
theorem C4_retry_classification {α : Type} (fn : Nat → Except JsError α)
    (jit : Nat → Nat) (b : Int) (k r : Nat) (e : JsError)
    (h : fn k = Except.error e) :
    (isBusy e = false → withRetry fn jit b k r = (Except.error e, [])) ∧
    (isBusy e = true → withRetry fn jit b k 0 = (Except.error capacityError, [])) ∧
    (∀ r2, isBusy e = true →
      withRetry fn jit b k (r2 + 1) =
        ((withRetry fn jit b (k + 1) r2).1,
          (b * (4 - ((r2 : Int) + 1)) + ((jit k % 1000 : Nat) : Int))
            :: (withRetry fn jit b (k + 1) r2).2)) :=
  ⟨fun hb => withRetry_notBusy fn jit b k r e h hb,
   fun hb => withRetry_busyZero fn jit b k e h hb,
   fun r2 hb => withRetry_busySucc fn jit b k r2 e h hb⟩

/-- C4 witness: a non-rate-limited error propagates unchanged with no
delay on the first attempt. -/
theorem C4_witness :
    withRetry (fun _ => (Except.error ⟨none, some "network down"⟩ : Except JsError Nat))
      jit0 3000 0 3 = (Except.error ⟨none, some "network down"⟩, []) :=
  (C4_retry_classification (fun _ => Except.error ⟨none, some "network down"⟩)
    jit0 3000 0 3 ⟨none, some "network down"⟩ rfl).1 rfl

/-- C6 counterexample: for a job reporting the done flag cleared twice
and then set with a result reference, the poller does observe the flag
exactly 3 times, but the string it returns is the reference with the
key query parameter appended — not the reference itself as claimed. -/
theorem C6_counterexample :
    compileVideoWithVeo ⟨false, none⟩
      (fun j => if j = 0 then ⟨false, none⟩ else ⟨true, some "vid://final"⟩)
      "SECRET" 10 = some (Except.ok "vid://final&key=SECRET", 3) ∧
    "vid://final&key=SECRET" ≠ "vid://final" := by
  refine ⟨rfl, ?_⟩
  decide

/-- C6 amended: given polls reporting the done flag cleared twice and
then set with a non-empty result reference, the poller observes the
flag exactly 3 times and returns the reference with the key query
parameter appended; a job that completes with the done flag set but a
falsy result reference — absent or the empty string — fails with the
production error. -/
theorem C6_amended (link apiKey : String) (getOp g2 g3 : Nat → VideoOp)
    (f f2 f3 : Nat) (hl : link ≠ "")
    (h0 : getOp 0 = ⟨false, none⟩) (h1 : getOp 1 = ⟨true, some link⟩) :
    compileVideoWithVeo ⟨false, none⟩ getOp apiKey (f + 1 + 1) =
      some (Except.ok (link ++ "&key=" ++ apiKey), 3) ∧
    compileVideoWithVeo ⟨true, none⟩ g2 apiKey f2 =
      some (Except.error productionError, 1) ∧
    compileVideoWithVeo ⟨true, some ""⟩ g3 apiKey f3 =
      some (Except.error productionError, 1) := by
  refine ⟨?_, ?_, ?_⟩
  · have p1 : pollLoop getOp (f + 1 + 1) 0 ⟨false, none⟩
        = pollLoop getOp (f + 1) 1 (getOp 0) := pollLoop_step getOp (f + 1) 0 _ rfl
    have p2 : pollLoop getOp (f + 1) 1 (getOp 0)
        = pollLoop getOp f 2 (getOp 1) := by
      rw [h0]
      exact pollLoop_step getOp f 1 _ rfl
    have p3 : pollLoop getOp f 2 (getOp 1) = some (⟨true, some link⟩, 2) := by
      rw [h1]
      exact pollLoop_done getOp f 2 _ rfl
    simp [compileVideoWithVeo, p1, p2, p3, hl]
  · have p : pollLoop g2 f2 0 ⟨true, none⟩ = some (⟨true, none⟩, 0) :=
      pollLoop_done g2 f2 0 _ rfl
    simp [compileVideoWithVeo, p]
  · have p : pollLoop g3 f3 0 ⟨true, some ""⟩ = some (⟨true, some ""⟩, 0) :=
      pollLoop_done g3 f3 0 _ rfl
    simp [compileVideoWithVeo, p]

/-- C6 witness: the amended theorem applied to the concrete mocked
job. -/
theorem C6_witness :
    compileVideoWithVeo ⟨false, none⟩
      (fun j => if j = 0 then ⟨false, none⟩ else ⟨true, some "vid://final"⟩)
      "SECRET" 2 = some (Except.ok ("vid://final" ++ "&key=" ++ "SECRET"), 3) :=
  (C6_amended "vid://final" "SECRET"
    (fun j => if j = 0 then ⟨false, none⟩ else ⟨true, some "vid://final"⟩)
    (fun _ => ⟨true, none⟩) (fun _ => ⟨true, some ""⟩) 0 0 0
    (by decide) rfl rfl).1

/-- C7: the poll loop imposes no upper bound of its own: whenever it
terminates with a final state, that state has the done flag set, and
for a job whose observed states never set the done flag the loop has
not terminated after any number of iterations, for every fuel bound —
so the poller never returns on such a job. -/
theorem C7_unbounded_poll (getOp : Nat → VideoOp) :
    (∀ fuel j op r, pollLoop getOp fuel j op = some r → r.1.done = true) ∧
    (∀ (initial : VideoOp) (apiKey : String), initial.done = false →
      (∀ n, (getOp n).done = false) →
      ∀ fuel, compileVideoWithVeo initial getOp apiKey fuel = none) := by
  constructor
  · exact pollLoop_done_of_some getOp
  · intro initial apiKey hinit hall fuel
    have := pollLoop_neverDone getOp hall fuel 0 initial hinit
    simp [compileVideoWithVeo, this]

/-- C7 witness: a job that never reports completion leaves the poller
still running after 5 iterations. -/
theorem C7_witness :
    compileVideoWithVeo ⟨false, none⟩ (fun _ => ⟨false, none⟩) "K" 5 = none :=
  (C7_unbounded_poll (fun _ => ⟨false, none⟩)).2 ⟨false, none⟩ "K" rfl (fun _ => rfl) 5


end ContentForge
